import Mathlib

/-!
Verification development for the RPC layer of location-guard-gaode.

The repository builds a request/response RPC abstraction on top of two
one-way message transports:

* the Window Binding, `PostRPC` in `src/js/common/post-rpc.js`, which
  exchanges namespaced envelopes over `postMessage` and filters loopback
  traffic via a per-instance random id;
* the Channel Binding, `Browser.rpc` in the WebExtensions browser module,
  which exchanges bare `{ method, args }` messages over
  `browser.runtime.sendMessage` and relies on the reply callback of the
  native API for correlation.

The definitions below are a shallow embedding of that code.  JavaScript
scalar values are modelled by `JVal`; JavaScript objects holding RPC fields
are modelled by records with `Option` fields (a `none` field corresponds to
an absent or `undefined` property); the registries, which the source keeps
as plain JS objects, are modelled as association lists with JS-object update
semantics (assignment to an existing key replaces the stored value, so keys
never repeat).  A handler is an arbitrary function from the argument list to
an outcome `HRes`, which distinguishes the four behaviours the dispatchers
distinguish: returning a plain value, returning a Promise that resolves,
throwing synchronously, and returning a Promise that rejects.
-/

/-- Scalar JavaScript values as they appear in RPC argument and result
positions.  `undef` is the JS value `undefined`. -/
inductive JVal where
  | undef : JVal
  | null : JVal
  | bool : Bool → JVal
  | num : Int → JVal
  | str : String → JVal
deriving DecidableEq, Repr

/-- Outcome of invoking a registered handler.  `val v` is a plain return of
`v`; `promise v` is a returned Promise that later resolves to `v`; `throws`
is a synchronous exception; `rejects` is a returned Promise that is
rejected. -/
inductive HRes where
  | val : JVal → HRes
  | promise : JVal → HRes
  | throws : HRes
  | rejects : HRes
deriving DecidableEq, Repr

/-- A registered handler: a function from the positional argument list to an
outcome. -/
abbrev Handler := List JVal → HRes

/-- Lookup in a JS-object-like association list: the value stored under key
`k`, or `none` when the property is absent. -/
def assocGet [DecidableEq κ] (k : κ) : List (κ × α) → Option α
  | [] => none
  | (j, v) :: t => if j = k then some v else assocGet k t

/-- Assignment `obj[k] = v` on a JS-object-like association list: any prior
binding of `k` is replaced, so keys never repeat. -/
def assocSet [DecidableEq κ] (k : κ) (v : α) (l : List (κ × α)) : List (κ × α) :=
  (k, v) :: l.filter (fun p => ! decide (p.1 = k))

/-- Deletion `delete obj[k]` on a JS-object-like association list; a no-op
when the key is absent. -/
def assocDel [DecidableEq κ] (k : κ) (l : List (κ × α)) : List (κ × α) :=
  l.filter (fun p => ! decide (p.1 = k))

/-- The wire message record.  Both bindings put their fields on one JS
object; a `none` field models an absent or `undefined` property.  The Window
Binding sends `{ method, args, callId, from }` requests and
`{ callId, value }` responses; the Channel Binding sends bare
`{ method, args }` messages.  The source field `from` is named `fromId`
here because `from` is reserved in Lean. -/
structure Msg where
  method : Option String := none
  args : Option (List JVal) := none
  callId : Option Nat := none
  fromId : Option Nat := none
  value : Option (List JVal) := none
deriving DecidableEq, Repr

/-- The native payload posted by the Window Binding: a JS object whose
properties are namespace keys holding a wire message, as built by
`PostRPC.prototype._sendMessage` (`temp = \x7b\x7d; temp[this._ns] = message`). -/
abbrev Payload := List (String × Msg)

/-- State of one `PostRPC` instance: the random instance id `this._id`, the
namespace string `this._ns`, the Call Registry `this._calls` (correlation id
to continuation, continuations being represented by identifiers), and the
Method Registry `this._methods`. -/
structure PostRPC where
  id : Nat
  ns : String
  calls : List (Nat × Nat)
  methods : List (String × Handler)

/-- Observable effect of one run of `PostRPC.prototype._receiveMessage`:
the message was ignored, an unknown-method log line was emitted, a response
payload was posted, the awaited handler failed so the async callback
rejected without sending anything, or a stored continuation was fired by
`c.apply(null, data.value)` with the given argument list. -/
inductive WEffect where
  | ignored : WEffect
  | logged : String → WEffect
  | handled : Payload → WEffect
  | raised : WEffect
  | resolvedCont : Nat → List JVal → WEffect
deriving DecidableEq, Repr

/-- What a JS Promise `resolve` keeps of the argument list it is applied to:
the first argument, `undefined` when applied to none. -/
def resolveValue (l : List JVal) : JVal := l.headD JVal.undef

/-- The response payload a dispatcher run posts on the wire, when any: only
the `handled` effect sends anything. -/
def WEffect.sends : WEffect → Option Payload
  | WEffect.handled p => some p
  | _ => none

/-- The constructor `new PostRPC(name, ...)`: fresh empty registries, the
namespace `__PostRPC_` ++ name, and the random instance id (the random draw
is a parameter of the model). -/
def PostRPC.init (name : String) (id : Nat) : PostRPC :=
  { id := id, ns := "__PostRPC_" ++ name, calls := [], methods := [] }

/-- `PostRPC.prototype.register`: store or overwrite the handler under the
method name. -/
def PostRPC.register (st : PostRPC) (name : String) (f : Handler) : PostRPC :=
  { st with methods := assocSet name f st.methods }

/-- `PostRPC.prototype.call`: record the continuation under a freshly drawn
correlation id (the random draw `callId` and the continuation identifier
`pid` are parameters of the model), default absent or falsy `args` to `[]`,
and post the request envelope under the namespace key.  Returns the new
state and the posted payload. -/
def PostRPC.call (st : PostRPC) (method : String) (args : Option (List JVal))
    (callId : Nat) (pid : Nat) : PostRPC × Payload :=
  ({ st with calls := assocSet callId pid st.calls },
   [(st.ns, { method := some method, args := some (args.getD []),
              callId := some callId, fromId := some st.id })])

/-- Result of `await handler(args)` followed by the request path tail of
`_receiveMessage`: a resolved handler posts a response envelope
`\x7b callId, value: [res] \x7d` under the namespace key; a throwing handler or a
rejected Promise makes the `await` throw, so the async callback rejects and
nothing is sent. -/
def wEffectOf (ns : String) (callId : Option Nat) : HRes → WEffect
  | HRes.val v => WEffect.handled [(ns, { callId := callId, value := some [v] })]
  | HRes.promise v => WEffect.handled [(ns, { callId := callId, value := some [v] })]
  | HRes.throws => WEffect.raised
  | HRes.rejects => WEffect.raised

/-- Request path of `_receiveMessage` (`data.method` truthy): drop loopback
messages whose `from` equals the own instance id, log and drop unknown
methods, otherwise await the handler on `data.args` (absent `args` invokes
the handler with no arguments) and send the response. -/
def PostRPC.reqPath (st : PostRPC) (s : String) (m : Msg) : PostRPC × WEffect :=
  if m.fromId = some st.id then (st, WEffect.ignored)
  else
    match assocGet s st.methods with
    | none => (st, WEffect.logged ("PostRPC: no handler for " ++ s))
    | some h => (st, wEffectOf st.ns m.callId (h (m.args.getD [])))

/-- Response path of `_receiveMessage` (`data.method` falsy): read the
continuation stored under `data.callId`, delete the entry, and when a
continuation was found fire it with `data.value` (absent `value` fires it
with no arguments).  An absent `callId` reads and deletes the JS key
"undefined", which never holds a numeric-key entry, so the registry is
untouched. -/
def PostRPC.respPath (st : PostRPC) (m : Msg) : PostRPC × WEffect :=
  match m.callId with
  | none => (st, WEffect.ignored)
  | some i =>
    match assocGet i st.calls with
    | none => ({ st with calls := assocDel i st.calls }, WEffect.ignored)
    | some pid => ({ st with calls := assocDel i st.calls },
                   WEffect.resolvedCont pid (m.value.getD []))

/-- `PostRPC.prototype._receiveMessage`: unwrap `event.data[this._ns]` and
ignore the event when absent; classify by truthiness of `data.method`
(`some s` with `s` nonempty is a request, an absent or empty `method` is a
response) and run the matching path. -/
def PostRPC.receiveMessage (st : PostRPC) (eventData : Option Payload) :
    PostRPC × WEffect :=
  match eventData.bind (fun p => assocGet st.ns p) with
  | none => (st, WEffect.ignored)
  | some m =>
    match m.method with
    | some s => if s = "" then st.respPath m else st.reqPath s m
    | none => st.respPath m

/-- Result of one run of the Channel Binding listener `Browser.rpc._listener`:
no handler was found so the listener returned with no reply; the handler
returned a plain value which was passed to `replyHandler` synchronously and
the listener returned `false`; the handler returned a Promise so the
listener returned `true` and the reply is sent when the Promise resolves;
the handler returned a Promise that rejects so the listener returned `true`
but `replyHandler` is never invoked; or the handler threw synchronously so
the exception propagated out of the listener. -/
inductive ListenerResult where
  | noHandler : ListenerResult
  | syncReply : JVal → ListenerResult
  | asyncReply : JVal → ListenerResult
  | asyncNoReply : ListenerResult
  | raised : ListenerResult
deriving DecidableEq, Repr

/-- The value the listener returns to the native messaging API: `false` for
an immediate reply, `true` for a reply that will arrive later, `undefined`
(here `none`) when no handler was found, and nothing at all (also `none`)
when the handler threw. -/
def ListenerResult.sentinel : ListenerResult → Option Bool
  | ListenerResult.noHandler => none
  | ListenerResult.syncReply _ => some false
  | ListenerResult.asyncReply _ => some true
  | ListenerResult.asyncNoReply => some true
  | ListenerResult.raised => none

/-- The value passed to `replyHandler` before the listener returns, when
any. -/
def ListenerResult.syncResponse : ListenerResult → Option JVal
  | ListenerResult.syncReply v => some v
  | _ => none

/-- The value passed to `replyHandler` after the listener has returned, when
any (the settled value of the Promise the handler returned). -/
def ListenerResult.laterResponse : ListenerResult → Option JVal
  | ListenerResult.asyncReply v => some v
  | _ => none

/-- The extra trailing argument the Channel Binding appends before invoking
a handler: `sender.tab ? sender.tab.id : null`, the calling peer being
identified by the id of its tab. -/
def senderTabId : Option Nat → JVal
  | some t => JVal.num (Int.ofNat t)
  | none => JVal.null

/-- How the tail of `Browser.rpc._listener` turns the handler outcome into a
listener result: `res instanceof Promise` selects the deferred branch
(`res.then(replyHandler); return true`), any other value the synchronous
branch (`replyHandler(res); return false`); a rejected Promise leaves
`replyHandler` uninvoked, and a synchronous throw propagates. -/
def applyHRes : HRes → ListenerResult
  | HRes.val v => ListenerResult.syncReply v
  | HRes.promise v => ListenerResult.asyncReply v
  | HRes.throws => ListenerResult.raised
  | HRes.rejects => ListenerResult.asyncNoReply

namespace Browser.rpc

/-- `Browser.rpc.register`: store or overwrite the handler in the
`_methods` map (the lazy one-time installation of the listener on
`browser.runtime.onMessage` is not part of the state modelled here). -/
def register (ms : List (String × Handler)) (name : String) (h : Handler) :
    List (String × Handler) :=
  assocSet name h ms

/-- `Browser.rpc._listener`: look up `message.method` in `_methods` and
return with no reply when no handler is registered; otherwise default an
absent `args` to `[]`, append the sender tab id, invoke the handler on the
augmented argument list, and reply per the outcome. -/
def listener (ms : List (String × Handler)) (message : Msg)
    (senderTab : Option Nat) : ListenerResult :=
  match message.method.bind (fun s => assocGet s ms) with
  | none => ListenerResult.noHandler
  | some h => applyHRes (h ((message.args.getD []) ++ [senderTabId senderTab]))

/-- `Browser.rpc.call`: the message handed to `browser.tabs.sendMessage` or
`browser.runtime.sendMessage` is the bare record `\x7b method: name, args: args \x7d`;
no namespace wrapping, no correlation id and no sender id are added, the
native reply callback carrying the correlation instead. -/
def callMessage (name : String) (args : Option (List JVal)) : Msg :=
  { method := some name, args := args }

end Browser.rpc

theorem assocGet_del_ne [DecidableEq κ] (k j : κ) (l : List (κ × α)) (h : ¬ j = k) :
    assocGet j (assocDel k l) = assocGet j l := by
  induction l with
  | nil => rfl
  | cons p t ih =>
    cases p with
    | mk a b =>
      by_cases ha : a = k
      · have haj : ¬ a = j := fun e => h (by rw [← e, ha])
        rw [show assocDel k ((a, b) :: t) = assocDel k t from by
          simp [assocDel, List.filter_cons, ha]]
        rw [ih]
        simp [assocGet, haj]
      · rw [show assocDel k ((a, b) :: t) = (a, b) :: assocDel k t from by
          simp [assocDel, List.filter_cons, ha]]
        by_cases haj : a = j
        · simp [assocGet, haj]
        · simp only [assocGet, if_neg haj]
          exact ih

theorem assocGet_eq_none_iff [DecidableEq κ] (k : κ) (l : List (κ × α)) :
    assocGet k l = none ↔ ∀ p ∈ l, ¬ p.1 = k := by
  induction l with
  | nil => simp [assocGet]
  | cons p t ih =>
    cases p with
    | mk a b =>
      by_cases ha : a = k
      · simp [assocGet, ha]
      · simp [assocGet, ha, ih]

theorem assocDel_of_get_none [DecidableEq κ] (k : κ) (l : List (κ × α))
    (h : assocGet k l = none) : assocDel k l = l := by
  rw [assocGet_eq_none_iff] at h
  simp only [assocDel]
  apply List.filter_eq_self.mpr
  intro p hp
  simpa using h p hp

theorem assocGet_set_self [DecidableEq κ] (k : κ) (v : α) (l : List (κ × α)) :
    assocGet k (assocSet k v l) = some v := by
  simp [assocSet, assocGet]

theorem assocDel_set_self [DecidableEq κ] (k : κ) (v : α) (l : List (κ × α)) :
    assocDel k (assocSet k v l) = assocDel k l := by
  simp [assocSet, assocDel, List.filter]

theorem assocSet_of_get_none [DecidableEq κ] (k : κ) (v : α) (l : List (κ × α))
    (h : assocGet k l = none) : assocSet k v l = (k, v) :: l := by
  rw [assocGet_eq_none_iff] at h
  simp only [assocSet]
  congr 1
  apply List.filter_eq_self.mpr
  intro p hp
  simpa using h p hp

theorem not_mem_keys_of_get_none [DecidableEq κ] (k : κ) (l : List (κ × α))
    (h : assocGet k l = none) : k ∉ l.map Prod.fst := by
  rw [assocGet_eq_none_iff] at h
  intro hmem
  rcases List.mem_map.mp hmem with ⟨p, hp, hk⟩
  exact h p hp hk

theorem receiveMessage_singleton (st : PostRPC) (k : String) (m : Msg)
    (hk : k = st.ns) :
    st.receiveMessage (some [(k, m)]) =
      match m.method with
      | some s => if s = "" then st.respPath m else st.reqPath s m
      | none => st.respPath m := by
  subst hk
  simp [PostRPC.receiveMessage, assocGet]

theorem reqPath_handler (st : PostRPC) (s : String) (m : Msg) (h : Handler)
    (hf : ¬ m.fromId = some st.id) (hreg : assocGet s st.methods = some h) :
    st.reqPath s m = (st, wEffectOf st.ns m.callId (h (m.args.getD []))) := by
  unfold PostRPC.reqPath
  rw [if_neg hf, hreg]

theorem reqPath_loopback (st : PostRPC) (s : String) (m : Msg)
    (hf : m.fromId = some st.id) :
    st.reqPath s m = (st, WEffect.ignored) := by
  unfold PostRPC.reqPath
  rw [if_pos hf]

theorem reqPath_nohandler (st : PostRPC) (s : String) (m : Msg)
    (hf : ¬ m.fromId = some st.id) (hreg : assocGet s st.methods = none) :
    st.reqPath s m = (st, WEffect.logged ("PostRPC: no handler for " ++ s)) := by
  unfold PostRPC.reqPath
  rw [if_neg hf, hreg]

theorem respPath_found (st : PostRPC) (m : Msg) (i : Nat) (pid : Nat)
    (hc : m.callId = some i) (hg : assocGet i st.calls = some pid) :
    st.respPath m = ({ st with calls := assocDel i st.calls },
                     WEffect.resolvedCont pid (m.value.getD [])) := by
  unfold PostRPC.respPath
  rw [hc]
  simp [hg]

theorem respPath_notfound (st : PostRPC) (m : Msg) (i : Nat)
    (hc : m.callId = some i) (hg : assocGet i st.calls = none) :
    st.respPath m = (st, WEffect.ignored) := by
  unfold PostRPC.respPath
  rw [hc]
  simp only [hg]
  rw [assocDel_of_get_none i st.calls hg]

/-- C1: a full round trip on the Window Binding resolves the promise of the
caller to exactly the value the registered handler returns.  With handler
`h` registered for method `s` on the callee, `call(s, args)` on the caller
produces a request payload; delivering it to the callee leaves the callee
state unchanged and posts a response whose `value` is the handler result
wrapped as a one-element sequence; delivering that response to the caller
fires the stored continuation with that sequence, whose first element — the
value the Promise resolve keeps — is exactly the handler result, whatever
value (including `undefined`, `null` or `false`) it is. -/
theorem C1_round_trip (caller callee : PostRPC) (s : String) (h : Handler)
    (args : List JVal) (cid pid : Nat) (v : JVal)
    (hs : ¬ s = "") (hns : callee.ns = caller.ns) (hid : ¬ caller.id = callee.id)
    (hreg : assocGet s callee.methods = some h)
    (hres : h args = HRes.val v ∨ h args = HRes.promise v) :
    callee.receiveMessage (some (caller.call s (some args) cid pid).2)
      = (callee, WEffect.handled [(callee.ns, { callId := some cid, value := some [v] })])
    ∧ ((caller.call s (some args) cid pid).1.receiveMessage
        (some [(callee.ns, { callId := some cid, value := some [v] })]))
      = ({ caller with calls := assocDel cid caller.calls },
         WEffect.resolvedCont pid [v])
    ∧ resolveValue [v] = v := by
  refine ⟨?_, ?_, rfl⟩
  · rw [show (caller.call s (some args) cid pid).2
        = [(caller.ns, { method := some s, args := some args,
                         callId := some cid, fromId := some caller.id })] from rfl]
    rw [receiveMessage_singleton callee caller.ns _ hns.symm]
    show (if s = "" then _ else callee.reqPath s _) = _
    rw [if_neg hs]
    rw [reqPath_handler callee s _ h (fun e => hid (Option.some.inj e)) hreg]
    show (callee, wEffectOf callee.ns (some cid) (h args)) = _
    rcases hres with hv | hv
    · rw [hv]
      rfl
    · rw [hv]
      rfl
  · rw [receiveMessage_singleton (caller.call s (some args) cid pid).1 callee.ns _ hns]
    show (caller.call s (some args) cid pid).1.respPath _ = _
    rw [respPath_found (caller.call s (some args) cid pid).1 _ cid pid rfl
        (assocGet_set_self cid pid caller.calls)]
    show ({ caller with calls := assocDel cid (assocSet cid pid caller.calls) },
          WEffect.resolvedCont pid [v]) = _
    rw [assocDel_set_self]

theorem C1_round_trip_witness :
    PostRPC.receiveMessage
        ⟨2, "__PostRPC_t", [], [("echo", fun a => HRes.val (a.headD JVal.undef))]⟩
        (some (PostRPC.call ⟨1, "__PostRPC_t", [], []⟩ "echo"
          (some [JVal.bool false]) 5 0).2)
      = (⟨2, "__PostRPC_t", [], [("echo", fun a => HRes.val (a.headD JVal.undef))]⟩,
         WEffect.handled
           [("__PostRPC_t", { callId := some 5, value := some [JVal.bool false] })])
    ∧ ((PostRPC.call ⟨1, "__PostRPC_t", [], []⟩ "echo"
          (some [JVal.bool false]) 5 0).1.receiveMessage
        (some [("__PostRPC_t", { callId := some 5, value := some [JVal.bool false] })]))
      = (⟨1, "__PostRPC_t", [], []⟩, WEffect.resolvedCont 0 [JVal.bool false])
    ∧ resolveValue [JVal.bool false] = JVal.bool false :=
  C1_round_trip ⟨1, "__PostRPC_t", [], []⟩
    ⟨2, "__PostRPC_t", [], [("echo", fun a => HRes.val (a.headD JVal.undef))]⟩
    "echo" (fun a => HRes.val (a.headD JVal.undef)) [JVal.bool false] 5 0
    (JVal.bool false) (by decide) rfl (by decide) rfl (Or.inl rfl)

/-- C2: dispatching an incoming response envelope on the Window Binding
resolves exactly the Pending Call whose correlation id matches.  When the
Call Registry holds a continuation under the correlation id of the envelope,
the dispatcher removes exactly that entry, fires exactly that continuation
with the response value, and leaves every other Pending Call bound exactly
as before (so concurrent outstanding calls resolve independently in any
arrival order); when no such entry exists, the dispatcher fires no
continuation and leaves the registry unchanged. -/
theorem C2_response_dispatch (st : PostRPC) (cid : Nat) (val : List JVal) :
    (∀ pid, assocGet cid st.calls = some pid →
      st.receiveMessage
          (some [(st.ns, { callId := some cid, value := some val })])
        = ({ st with calls := assocDel cid st.calls }, WEffect.resolvedCont pid val)
      ∧ ∀ k, ¬ k = cid → assocGet k (assocDel cid st.calls) = assocGet k st.calls)
    ∧ (assocGet cid st.calls = none →
      st.receiveMessage
          (some [(st.ns, { callId := some cid, value := some val })])
        = (st, WEffect.ignored)) := by
  constructor
  · intro pid hg
    refine ⟨?_, fun k hk => assocGet_del_ne cid k st.calls hk⟩
    rw [receiveMessage_singleton st st.ns _ rfl]
    show st.respPath _ = _
    rw [respPath_found st _ cid pid rfl hg]
    rfl
  · intro hg
    rw [receiveMessage_singleton st st.ns _ rfl]
    show st.respPath _ = _
    rw [respPath_notfound st _ cid rfl hg]

theorem C2_response_dispatch_witness :
    (PostRPC.receiveMessage ⟨9, "__PostRPC_t", [(5, 1), (7, 2)], []⟩
        (some [("__PostRPC_t", { callId := some 5, value := some [JVal.num 3] })])
      = (⟨9, "__PostRPC_t", [(7, 2)], []⟩, WEffect.resolvedCont 1 [JVal.num 3])
     ∧ assocGet 7 (assocDel 5 [(5, 1), (7, 2)]) = assocGet 7 [(5, 1), (7, 2)])
    ∧ (PostRPC.receiveMessage ⟨9, "__PostRPC_t", [(7, 2)], []⟩
        (some [("__PostRPC_t", { callId := some 5, value := some [JVal.num 3] })])
      = (⟨9, "__PostRPC_t", [(7, 2)], []⟩, WEffect.ignored)) := by
  have h1 := (C2_response_dispatch ⟨9, "__PostRPC_t", [(5, 1), (7, 2)], []⟩ 5
      [JVal.num 3]).1 1 rfl
  have h2 := (C2_response_dispatch ⟨9, "__PostRPC_t", [(7, 2)], []⟩ 5
      [JVal.num 3]).2 rfl
  exact ⟨⟨h1.1, h1.2 7 (by decide)⟩, h2⟩

theorem receiveMessage_of_lookup (st : PostRPC) (p : Payload) (m : Msg)
    (hp : assocGet st.ns p = some m) :
    st.receiveMessage (some p) =
      match m.method with
      | some s => if s = "" then st.respPath m else st.reqPath s m
      | none => st.respPath m := by
  unfold PostRPC.receiveMessage
  simp [hp]

/-- C3 counterexample: a request envelope that instance 7 sent to itself —
method name `""`, arguments `[]`, correlation id 3, sender id 7, exactly
what `call("", [])` puts on the wire while Pending Call 3 is outstanding —
is not ignored by the dispatcher of instance 7.  Because `data.method` is
the empty string, hence falsy, classification takes the response path, the
Pending Call with id 3 is removed from the Call Registry and its
continuation is fired, so the message is misinterpreted as a response,
contradicting the claim that every loopback request is ignored with no
registry change. -/
theorem C3_counterexample :
    PostRPC.receiveMessage ⟨7, "__PostRPC_t", [(3, 1)], []⟩
        (some [("__PostRPC_t",
          { method := some "", args := some [], callId := some 3, fromId := some 7 })])
      = (⟨7, "__PostRPC_t", [], []⟩, WEffect.resolvedCont 1 []) := rfl

/-- C3 amended: for every request envelope with a nonempty (truthy) method
name whose sender id field equals the own instance id of the receiving
Window Binding instance, the dispatcher ignores the message — no handler is
invoked, no response is sent, and neither registry changes.  (The amendment
excludes the empty method name: such an envelope is classified by the
falsiness of `data.method` as a response and bypasses the loopback
filter.) -/
theorem C3_loopback_filter (st : PostRPC) (p : Payload) (m : Msg) (s : String)
    (hp : assocGet st.ns p = some m) (hm : m.method = some s) (hs : ¬ s = "")
    (hfrom : m.fromId = some st.id) :
    st.receiveMessage (some p) = (st, WEffect.ignored) := by
  rw [receiveMessage_of_lookup st p m hp, hm]
  show (if s = "" then st.respPath m else st.reqPath s m) = _
  rw [if_neg hs, reqPath_loopback st s m hfrom]

theorem C3_loopback_filter_witness :
    PostRPC.receiveMessage ⟨7, "__PostRPC_t", [(3, 1)], []⟩
        (some [("__PostRPC_t",
          { method := some "echo", args := some [], callId := some 3, fromId := some 7 })])
      = (⟨7, "__PostRPC_t", [(3, 1)], []⟩, WEffect.ignored) :=
  C3_loopback_filter ⟨7, "__PostRPC_t", [(3, 1)], []⟩
    [("__PostRPC_t",
      { method := some "echo", args := some [], callId := some 3, fromId := some 7 })]
    { method := some "echo", args := some [], callId := some 3, fromId := some 7 }
    "echo" rfl rfl (by decide) rfl

/-- C4: on the Channel Binding, a dispatched request whose registered
handler returns a Promise makes the listener return the sentinel `true`
synchronously, pass nothing to `replyHandler` before returning, and send
the response only once the Promise settles, with the settled value; a
handler returning an immediate (non-Promise) value makes the listener pass
that value to `replyHandler` synchronously and return the sentinel
`false`. -/
theorem C4_channel_sentinel (ms : List (String × Handler)) (message : Msg)
    (t : Option Nat) (s : String) (h : Handler) (v : JVal)
    (hm : message.method = some s) (hreg : assocGet s ms = some h) :
    (h ((message.args.getD []) ++ [senderTabId t]) = HRes.promise v →
      Browser.rpc.listener ms message t = ListenerResult.asyncReply v
      ∧ (Browser.rpc.listener ms message t).sentinel = some true
      ∧ (Browser.rpc.listener ms message t).syncResponse = none
      ∧ (Browser.rpc.listener ms message t).laterResponse = some v)
    ∧ (h ((message.args.getD []) ++ [senderTabId t]) = HRes.val v →
      Browser.rpc.listener ms message t = ListenerResult.syncReply v
      ∧ (Browser.rpc.listener ms message t).sentinel = some false
      ∧ (Browser.rpc.listener ms message t).syncResponse = some v
      ∧ (Browser.rpc.listener ms message t).laterResponse = none) := by
  have hL : Browser.rpc.listener ms message t
      = applyHRes (h ((message.args.getD []) ++ [senderTabId t])) := by
    unfold Browser.rpc.listener
    rw [hm]
    simp [hreg]
  constructor
  · intro hv
    rw [hL, hv]
    exact ⟨rfl, rfl, rfl, rfl⟩
  · intro hv
    rw [hL, hv]
    exact ⟨rfl, rfl, rfl, rfl⟩

theorem C4_channel_sentinel_witness :
    (Browser.rpc.listener [("slow", fun _ => HRes.promise (JVal.num 1))]
        { method := some "slow" } none
      = ListenerResult.asyncReply (JVal.num 1)
     ∧ (Browser.rpc.listener [("slow", fun _ => HRes.promise (JVal.num 1))]
          { method := some "slow" } none).sentinel = some true
     ∧ (Browser.rpc.listener [("slow", fun _ => HRes.promise (JVal.num 1))]
          { method := some "slow" } none).syncResponse = none
     ∧ (Browser.rpc.listener [("slow", fun _ => HRes.promise (JVal.num 1))]
          { method := some "slow" } none).laterResponse = some (JVal.num 1))
    ∧ (Browser.rpc.listener [("fast", fun _ => HRes.val (JVal.num 2))]
        { method := some "fast" } none
      = ListenerResult.syncReply (JVal.num 2)
     ∧ (Browser.rpc.listener [("fast", fun _ => HRes.val (JVal.num 2))]
          { method := some "fast" } none).sentinel = some false
     ∧ (Browser.rpc.listener [("fast", fun _ => HRes.val (JVal.num 2))]
          { method := some "fast" } none).syncResponse = some (JVal.num 2)
     ∧ (Browser.rpc.listener [("fast", fun _ => HRes.val (JVal.num 2))]
          { method := some "fast" } none).laterResponse = none) :=
  ⟨(C4_channel_sentinel [("slow", fun _ => HRes.promise (JVal.num 1))]
      { method := some "slow" } none "slow" (fun _ => HRes.promise (JVal.num 1))
      (JVal.num 1) rfl rfl).1 rfl,
   (C4_channel_sentinel [("fast", fun _ => HRes.val (JVal.num 2))]
      { method := some "fast" } none "fast" (fun _ => HRes.val (JVal.num 2))
      (JVal.num 2) rfl rfl).2 rfl⟩

/-- C5: on the Channel Binding, a dispatched request invokes the registered
handler on the request arguments with exactly one extra trailing argument,
the tab id of the calling peer (the listener result is the image under
`applyHRes` of the handler applied to `args ++ [senderTabId t]`); the
trailing arguments of two different peers differ; and the Window Binding
dispatcher performs no such augmentation, invoking the handler on exactly
the `args` field of the request. -/
theorem C5_sender_augmentation (ms : List (String × Handler)) (s : String)
    (h : Handler) (a : List JVal) (t : Option Nat) (st : PostRPC)
    (cid : Option Nat) (fid : Option Nat)
    (hreg : assocGet s ms = some h)
    (hs : ¬ s = "") (hful : ¬ fid = some st.id)
    (hwreg : assocGet s st.methods = some h) :
    Browser.rpc.listener ms { method := some s, args := some a } t
      = applyHRes (h (a ++ [senderTabId t]))
    ∧ (∀ t1 t2 : Nat, ¬ t1 = t2 →
        ¬ senderTabId (some t1) = senderTabId (some t2))
    ∧ st.receiveMessage (some [(st.ns,
        { method := some s, args := some a, callId := cid, fromId := fid })])
      = (st, wEffectOf st.ns cid (h a)) := by
  refine ⟨?_, ?_, ?_⟩
  · unfold Browser.rpc.listener
    simp [hreg]
  · intro t1 t2 ht e
    apply ht
    simpa [senderTabId] using e
  · rw [receiveMessage_singleton st st.ns _ rfl]
    show (if s = "" then _ else st.reqPath s _) = _
    rw [if_neg hs, reqPath_handler st s _ h hful hwreg]
    rfl

theorem C5_sender_augmentation_witness :
    Browser.rpc.listener [("whoCalled", fun a => HRes.val (a.getLastD JVal.undef))]
        { method := some "whoCalled", args := some [] } (some 4)
      = applyHRes ((fun a => HRes.val (a.getLastD JVal.undef))
          ([] ++ [senderTabId (some 4)]))
    ∧ (∀ t1 t2 : Nat, ¬ t1 = t2 →
        ¬ senderTabId (some t1) = senderTabId (some t2))
    ∧ PostRPC.receiveMessage
        ⟨9, "__PostRPC_t", [], [("whoCalled", fun a => HRes.val (a.getLastD JVal.undef))]⟩
        (some [("__PostRPC_t",
          { method := some "whoCalled", args := some [], callId := some 1,
            fromId := some 8 })])
      = (⟨9, "__PostRPC_t", [], [("whoCalled", fun a => HRes.val (a.getLastD JVal.undef))]⟩,
         wEffectOf "__PostRPC_t" (some 1)
           ((fun a => HRes.val (a.getLastD JVal.undef)) [])) :=
  C5_sender_augmentation
    [("whoCalled", fun a => HRes.val (a.getLastD JVal.undef))] "whoCalled"
    (fun a => HRes.val (a.getLastD JVal.undef)) [] (some 4)
    ⟨9, "__PostRPC_t", [], [("whoCalled", fun a => HRes.val (a.getLastD JVal.undef))]⟩
    (some 1) (some 8) rfl (by decide) (by decide) rfl

/-- C6: a request whose method name is not in the Method Registry is logged
and dropped without raising and without sending any response.  On the
Window Binding the dispatcher emits the log line and returns with the state
unchanged — no handler runs, nothing is posted, so the Pending Call of the
original caller is never resolved; on the Channel Binding the listener
returns with no reply and no registry change. -/
theorem C6_unknown_method (st : PostRPC) (s : String) (a : Option (List JVal))
    (cid : Option Nat) (fid : Option Nat) (hs : ¬ s = "")
    (hful : ¬ fid = some st.id) (hreg : assocGet s st.methods = none) :
    st.receiveMessage (some [(st.ns,
        { method := some s, args := a, callId := cid, fromId := fid })])
      = (st, WEffect.logged ("PostRPC: no handler for " ++ s))
    ∧ (WEffect.logged ("PostRPC: no handler for " ++ s)).sends = none
    ∧ (∀ (ms : List (String × Handler)) (t : Option Nat), assocGet s ms = none →
        Browser.rpc.listener ms { method := some s, args := a } t
          = ListenerResult.noHandler
        ∧ (ListenerResult.noHandler).syncResponse = none
        ∧ (ListenerResult.noHandler).laterResponse = none) := by
  refine ⟨?_, rfl, ?_⟩
  · rw [receiveMessage_singleton st st.ns _ rfl]
    show (if s = "" then _ else st.reqPath s _) = _
    rw [if_neg hs, reqPath_nohandler st s _ hful hreg]
  · intro ms t hg
    refine ⟨?_, rfl, rfl⟩
    unfold Browser.rpc.listener
    simp [hg]

theorem C6_unknown_method_witness :
    (PostRPC.receiveMessage ⟨9, "__PostRPC_t", [(5, 1)], []⟩
        (some [("__PostRPC_t",
          { method := some "doesNotExist", args := some [], callId := some 2,
            fromId := some 8 })])
      = (⟨9, "__PostRPC_t", [(5, 1)], []⟩,
         WEffect.logged ("PostRPC: no handler for " ++ "doesNotExist")))
    ∧ (Browser.rpc.listener []
        { method := some "doesNotExist", args := some [] } none
      = ListenerResult.noHandler) := by
  have h := C6_unknown_method ⟨9, "__PostRPC_t", [(5, 1)], []⟩ "doesNotExist"
    (some []) (some 2) (some 8) (by decide) (by decide) rfl
  exact ⟨h.1, (h.2.2 [] none rfl).1⟩

/-- C7: a request whose handler fails is not caught by the dispatcher and
produces no response envelope.  On the Window Binding a handler that throws,
or returns a Promise that rejects, makes the awaited call throw: the async
dispatch callback rejects, nothing is posted and the registries are
unchanged, so the Pending Call of the original caller is never resolved —
exactly as for an unregistered method.  On the Channel Binding a handler
that throws propagates out of the listener with no reply, and a handler
whose returned Promise rejects leaves `replyHandler` uninvoked forever. -/
theorem C7_handler_failure (st : PostRPC) (s : String) (h : Handler)
    (a : Option (List JVal)) (cid : Option Nat) (fid : Option Nat)
    (hs : ¬ s = "") (hful : ¬ fid = some st.id)
    (hreg : assocGet s st.methods = some h) :
    (h (a.getD []) = HRes.throws →
      st.receiveMessage (some [(st.ns,
          { method := some s, args := a, callId := cid, fromId := fid })])
        = (st, WEffect.raised))
    ∧ (h (a.getD []) = HRes.rejects →
      st.receiveMessage (some [(st.ns,
          { method := some s, args := a, callId := cid, fromId := fid })])
        = (st, WEffect.raised))
    ∧ WEffect.raised.sends = none
    ∧ (∀ (ms : List (String × Handler)) (t : Option Nat), assocGet s ms = some h →
        (h ((a.getD []) ++ [senderTabId t]) = HRes.throws →
          Browser.rpc.listener ms { method := some s, args := a } t
            = ListenerResult.raised)
        ∧ (h ((a.getD []) ++ [senderTabId t]) = HRes.rejects →
          Browser.rpc.listener ms { method := some s, args := a } t
            = ListenerResult.asyncNoReply
          ∧ ListenerResult.asyncNoReply.syncResponse = none
          ∧ ListenerResult.asyncNoReply.laterResponse = none)) := by
  have hW : st.receiveMessage (some [(st.ns,
      { method := some s, args := a, callId := cid, fromId := fid })])
      = (st, wEffectOf st.ns cid (h (a.getD []))) := by
    rw [receiveMessage_singleton st st.ns _ rfl]
    show (if s = "" then _ else st.reqPath s _) = _
    rw [if_neg hs, reqPath_handler st s _ h hful hreg]
  refine ⟨?_, ?_, rfl, ?_⟩
  · intro hv
    rw [hW, hv]
    rfl
  · intro hv
    rw [hW, hv]
    rfl
  · intro ms t hg
    have hL : Browser.rpc.listener ms { method := some s, args := a } t
        = applyHRes (h ((a.getD []) ++ [senderTabId t])) := by
      unfold Browser.rpc.listener
      simp [hg]
    exact ⟨fun hv => by rw [hL, hv]; rfl,
      fun hv => by rw [hL, hv]; exact ⟨rfl, rfl, rfl⟩⟩

theorem C7_handler_failure_witness :
    (PostRPC.receiveMessage ⟨9, "__PostRPC_t", [], [("boom", fun _ => HRes.throws)]⟩
        (some [("__PostRPC_t",
          { method := some "boom", args := some [], callId := some 2,
            fromId := some 8 })])
      = (⟨9, "__PostRPC_t", [], [("boom", fun _ => HRes.throws)]⟩, WEffect.raised))
    ∧ (PostRPC.receiveMessage ⟨9, "__PostRPC_t", [], [("boom", fun _ => HRes.rejects)]⟩
        (some [("__PostRPC_t",
          { method := some "boom", args := some [], callId := some 2,
            fromId := some 8 })])
      = (⟨9, "__PostRPC_t", [], [("boom", fun _ => HRes.rejects)]⟩, WEffect.raised))
    ∧ (Browser.rpc.listener [("boom", fun _ => HRes.throws)]
        { method := some "boom", args := some [] } none
      = ListenerResult.raised)
    ∧ (Browser.rpc.listener [("boom", fun _ => HRes.rejects)]
        { method := some "boom", args := some [] } none
      = ListenerResult.asyncNoReply) := by
  have h1 := C7_handler_failure ⟨9, "__PostRPC_t", [], [("boom", fun _ => HRes.throws)]⟩
    "boom" (fun _ => HRes.throws) (some []) (some 2) (some 8)
    (by decide) (by decide) rfl
  have h2 := C7_handler_failure ⟨9, "__PostRPC_t", [], [("boom", fun _ => HRes.rejects)]⟩
    "boom" (fun _ => HRes.rejects) (some []) (some 2) (some 8)
    (by decide) (by decide) rfl
  exact ⟨h1.1 rfl, h2.2.1 rfl, (h1.2.2.2 [("boom", fun _ => HRes.throws)] none rfl).1 rfl,
    ((h2.2.2.2 [("boom", fun _ => HRes.rejects)] none rfl).2 rfl).1⟩

/-- C8 counterexample: on the Channel Binding the outgoing request of
`Browser.rpc.call` is the bare record built by `callMessage` — for the
concrete invocation `call(null, "getState", [])` it carries no correlation
id and no sender id at all, refuting the claim that every invocation of
call on either binding sends an envelope carrying a freshly allocated
numeric correlation id. -/
theorem C8_counterexample :
    (Browser.rpc.callMessage "getState" (some [])).callId = none
    ∧ (Browser.rpc.callMessage "getState" (some [])).fromId = none :=
  ⟨rfl, rfl⟩

/-- C8 amended: on the Window Binding, every invocation of call posts an
envelope embedded under the library namespace key carrying the method name,
the argument array, the freshly allocated numeric correlation id and the
sender instance id; on the Channel Binding, call hands the transport the
bare message holding only the method name and the arguments — no namespace
key, no correlation id, no sender id — correlation being delegated to the
reply callback of the native messaging API. -/
theorem C8_wire_format (st : PostRPC) (m : String) (a : Option (List JVal))
    (cid pid : Nat) (name : String) (ca : Option (List JVal)) :
    (st.call m a cid pid).2
      = [(st.ns, { method := some m, args := some (a.getD []),
                   callId := some cid, fromId := some st.id })]
    ∧ Browser.rpc.callMessage name ca
      = { method := some name, args := ca, callId := none, fromId := none,
          value := none } :=
  ⟨rfl, rfl⟩

/-- C9 counterexample: nothing in `call` makes the freshly drawn correlation
id differ from the ids of the outstanding Pending Calls.  With Pending Call
5 outstanding, an invocation of call whose random draw is again 5 allocates
an id equal to an outstanding one, and the assignment
`this._calls[callId] = resolve` silently replaces the stored continuation 1
by the new continuation 2 — the prior Pending Call is lost. -/
theorem C9_counterexample :
    assocGet 5 ([(5, 1)] : List (Nat × Nat)) = some 1
    ∧ ((PostRPC.call ⟨9, "__PostRPC_t", [(5, 1)], []⟩ "m" none 5 2).1).calls
      = [(5, 2)] :=
  ⟨rfl, rfl⟩

/-- C9 amended: whenever the random draw of `call` avoids every outstanding
correlation id (the collision the spec accepts as negligible), the Call
Registry after the call is the old registry with the one fresh entry put in
front — every outstanding Pending Call is untouched — and pairwise
distinctness of the outstanding correlation ids is preserved. -/
theorem C9_fresh_ids (st : PostRPC) (m : String) (a : Option (List JVal))
    (cid pid : Nat) (hfresh : assocGet cid st.calls = none) :
    ((st.call m a cid pid).1).calls = (cid, pid) :: st.calls
    ∧ ((st.calls.map Prod.fst).Nodup →
        (((st.call m a cid pid).1).calls.map Prod.fst).Nodup) := by
  have h1 : ((st.call m a cid pid).1).calls = (cid, pid) :: st.calls := by
    show assocSet cid pid st.calls = _
    exact assocSet_of_get_none cid pid st.calls hfresh
  refine ⟨h1, fun hn => ?_⟩
  rw [h1]
  simp only [List.map_cons, List.nodup_cons]
  exact ⟨not_mem_keys_of_get_none cid st.calls hfresh, hn⟩

theorem C9_fresh_ids_witness :
    ((PostRPC.call ⟨9, "__PostRPC_t", [(5, 1)], []⟩ "m" none 7 3).1).calls
      = [(7, 3), (5, 1)]
    ∧ ((((PostRPC.call ⟨9, "__PostRPC_t", [(5, 1)], []⟩ "m" none 7 3).1).calls.map
          Prod.fst).Nodup) := by
  have h := C9_fresh_ids ⟨9, "__PostRPC_t", [(5, 1)], []⟩ "m" none 7 3 rfl
  exact ⟨h.1, h.2 (by decide)⟩

/-- C10: missing arguments default to the empty argument list.  On the
Window Binding, `call(method)` with the args parameter absent or falsy
posts a request whose `args` field is the empty array; on the Channel
Binding dispatcher, a request with no `args` field still dispatches, the
handler being invoked on the empty list augmented with the sender tab id
only. -/
theorem C10_default_args (st : PostRPC) (m : String) (cid pid : Nat)
    (ms : List (String × Handler)) (s : String) (h : Handler) (t : Option Nat)
    (hreg : assocGet s ms = some h) :
    (st.call m none cid pid).2
      = [(st.ns, { method := some m, args := some [],
                   callId := some cid, fromId := some st.id })]
    ∧ Browser.rpc.listener ms { method := some s } t
      = applyHRes (h [senderTabId t]) := by
  refine ⟨rfl, ?_⟩
  unfold Browser.rpc.listener
  simp [hreg]

theorem C10_default_args_witness :
    (PostRPC.call ⟨1, "__PostRPC_t", [], []⟩ "echo" none 5 0).2
      = [("__PostRPC_t", { method := some "echo", args := some [],
                           callId := some 5, fromId := some 1 })]
    ∧ Browser.rpc.listener [("f", fun a => HRes.val (a.headD JVal.undef))]
        { method := some "f" } (some 3)
      = applyHRes ((fun a => HRes.val (a.headD JVal.undef)) [senderTabId (some 3)]) :=
  C10_default_args ⟨1, "__PostRPC_t", [], []⟩ "echo" 5 0
    [("f", fun a => HRes.val (a.headD JVal.undef))] "f"
    (fun a => HRes.val (a.headD JVal.undef)) (some 3) rfl
